import Mathlib

/-!
Verification development for the multi-tenant data-access layer of the
pyarchinit-mobile-pwa backend.

The Lean definitions below are a shallow embedding of the Python source:

* `backend/models/projects.py` — roles, permission structures, request
  validators;
* `backend/routes/projects.py` — project CRUD and team management
  (`create_project`, `_get_user_permissions`, `_check_permission`,
  `add_team_member`, `remove_team_member`);
* `backend/dependencies.py` — `get_current_project`,
  `require_project_permission`;
* `backend/services/dynamic_db_manager.py` — `get_project_db`,
  `_create_sqlite_engine`, `_create_postgres_engine`,
  `_initialize_pyarchinit_db`, `_setup_rls`.

Modelling conventions:

* The SQLite auth database is modelled as explicit lists of rows
  (`projects`, `project_teams`, `users`).  A JSON object column is a
  `List (String × Bool)` (permissions) or `List (String × String)`
  (db_config); Python's `dict.get(k, default)` is `permGet` / `alookup`.
  A JSON `null` value for a key and an absent key are both falsy in the
  Python code paths modelled here, so both are modelled as an absent key.
* The filesystem is a map from paths to abstract file contents
  (`List (String × Nat)`); directories (`os.makedirs`) are not modelled.
* SQLAlchemy engines are runtime objects whose identity matters
  (the cache must hand back the *same* object); an `Engine` therefore
  carries a fresh numeric id allocated from a counter in the state, and
  reference identity is id equality.
* Every stateful operation returns `Except E α × GState`: the second
  component is the database/filesystem state when the operation returns
  or raises, so `commit`-before-failure behaviour is observable.
  Writes staged in a session before `db.commit()` are kept in a
  `pending` list and only merged into the durable state at commit;
  `db.rollback()` discards the pending list only.
-/

/-- Roles in a project team (`UserRole` in `backend/models/projects.py`). -/
inductive UserRole where
  | owner
  | admin
  | member
  | viewer
deriving DecidableEq, Repr

/-- The `ProjectPermissions` pydantic model with its declared field
defaults (`can_edit=True`, `can_delete=False`, `can_invite=False`). -/
structure ProjectPermissions where
  can_edit : Bool := true
  can_delete : Bool := false
  can_invite : Bool := false
deriving DecidableEq, Repr

/-- `ProjectPermissions(...).dict()`: serialization to the JSON object
stored in the `permissions` column. -/
def ProjectPermissions.dict (p : ProjectPermissions) : List (String × Bool) :=
  [("can_edit", p.can_edit), ("can_delete", p.can_delete), ("can_invite", p.can_invite)]

/-- Association-list lookup (Python `dict[k]` / `dict.get(k)`). -/
def alookup {α β : Type} [DecidableEq α] (l : List (α × β)) (k : α) : Option β :=
  match l with
  | [] => none
  | (a, b) :: t => if a = k then some b else alookup t k

/-- Python `permissions.get(key, False)` on a JSON permissions object. -/
def permGet (ps : List (String × Bool)) (k : String) : Bool :=
  match alookup ps k with
  | some b => b
  | none => false

/-- A row of the `projects` control-plane table. -/
structure Project where
  id : Nat
  name : String
  description : Option String
  owner_id : Nat
  db_mode : String
  db_config : List (String × String)
  is_personal : Bool
deriving DecidableEq, Repr

/-- A row of the `project_teams` membership table.  `permissions` is the
JSON column; `none` models SQL NULL (Python `if result[1]` is falsy). -/
structure TeamRow where
  project_id : Nat
  user_id : Nat
  role : UserRole
  permissions : Option (List (String × Bool))
deriving DecidableEq, Repr

/-- A row of the `users` table (only the columns the modelled routes read). -/
structure UserRow where
  id : Nat
  email : String
deriving DecidableEq, Repr

/-- First `projects` row with the given id
(`SELECT ... FROM projects WHERE id = :project_id`). -/
def findProject (ps : List Project) (pid : Nat) : Option Project :=
  match ps with
  | [] => none
  | p :: t => if p.id = pid then some p else findProject t pid

/-- First `project_teams` row for the (project, user) pair
(`SELECT ... FROM project_teams WHERE project_id = :p AND user_id = :u`). -/
def findMembership (ms : List TeamRow) (pid uid : Nat) : Option TeamRow :=
  match ms with
  | [] => none
  | m :: t =>
      if m.project_id = pid ∧ m.user_id = uid then some m else findMembership t pid uid

/-- First `users` row with the given email
(`SELECT id FROM users WHERE email = :email`). -/
def findUserByEmail (us : List UserRow) (email : String) : Option UserRow :=
  match us with
  | [] => none
  | u :: t => if u.email = email then some u else findUserByEmail t email

/-- `_get_user_permissions` in `backend/routes/projects.py`: returns the
role and the decoded permissions object (`{}` when the column is NULL),
or `none` when the user has no membership row. -/
def get_user_permissions (ms : List TeamRow) (pid uid : Nat) :
    Option (UserRole × List (String × Bool)) :=
  match findMembership ms pid uid with
  | none => none
  | some m => some (m.role, m.permissions.getD [])

/-- `_check_permission` in `backend/routes/projects.py`. -/
def check_permission (ms : List TeamRow) (pid uid : Nat) (required : String) : Bool :=
  match get_user_permissions ms pid uid with
  | none => false
  | some (role, perms) =>
      if role = UserRole.owner ∨ role = UserRole.admin then true
      else permGet perms required

/-- Error taxonomy of the modelled routes (HTTP status + detail family). -/
inductive ApiError where
  | projectIdRequired
  | projectNotFound
  | accessDenied
  | permissionDenied
  | cannotRemoveOwner
  | cannotModifyOwner
  | memberNotFound
  | userNotFoundByEmail
  | alreadyMember
  | ownerRoleRejected
  | internalError
deriving DecidableEq, Repr

/-- `require_project_permission` in `backend/dependencies.py`: raises 403
`accessDenied` when there is no membership row, returns `true` for owner
and admin, raises 403 `permissionDenied` when the explicit permission is
absent or false, and returns `true` otherwise. -/
def require_project_permission (ms : List TeamRow) (permission : String)
    (pid uid : Nat) : Except ApiError Bool :=
  match findMembership ms pid uid with
  | none => Except.error ApiError.accessDenied
  | some m =>
      if m.role = UserRole.owner ∨ m.role = UserRole.admin then Except.ok true
      else
        if permGet (m.permissions.getD []) permission then Except.ok true
        else Except.error ApiError.permissionDenied

/-- Default permission derivation in `add_team_member`
(`backend/routes/projects.py` lines 489-494): used when the request
carries no explicit permission set. -/
def defaultPermissionsFor (role : UserRole) : List (String × Bool) :=
  [("can_edit", decide (role = UserRole.admin ∨ role = UserRole.member)),
   ("can_delete", decide (role = UserRole.admin)),
   ("can_invite", decide (role = UserRole.admin))]

/-- A live SQLAlchemy engine.  Identity is the fresh id allocated when
`create_engine` runs; two calls to `create_engine` yield distinct objects. -/
structure Engine where
  engineId : Nat
deriving DecidableEq, Repr

/-- State of one table of the shared PostgreSQL database, as far as
`_setup_rls` observes and mutates it: whether the `project_id` column
exists, whether row-level security is enabled, and the installed
policies (name, tenant id used in the `USING` predicate). -/
structure TableState where
  hasProjectIdCol : Bool
  rlsEnabled : Bool
  policies : List (String × Nat)
deriving DecidableEq, Repr

/-- The shared PostgreSQL database for hybrid mode: table name to state. -/
structure RlsDb where
  tables : List (String × TableState)
deriving DecidableEq, Repr

/-- The DDL statements `_setup_rls` builds and executes, one constructor
per `conn.execute(text(...))` call in the loop body. -/
inductive RlsStmt where
  | addColumnIfNotExists (table : String)
  | enableRowLevelSecurity (table : String)
  | createPolicyIfNotExists (table : String) (policy : String) (pid : Nat)
deriving DecidableEq, Repr

/-- The fixed table list in `_setup_rls`. -/
def rlsTables : List String :=
  ["us_table", "inventario_materiali_table", "pottery_table", "media_table", "mobile_notes"]

/-- Update one table's state in the shared database. -/
def rlsSetTable (db : RlsDb) (t : String) (ts : TableState) : RlsDb :=
  ⟨(t, ts) :: db.tables.filter (fun p => ¬ p.1 = t)⟩

/-- Effect of executing one DDL statement on the shared database.  The
`IF NOT EXISTS` clauses are honoured (no-op when the column/policy is
already present); a statement against a table absent from the schema is
a no-op here (in the source the raised error is caught and logged).
Either way a statement never changes an already-present column/policy. -/
def applyRlsStmt (db : RlsDb) (s : RlsStmt) : RlsDb :=
  match s with
  | RlsStmt.addColumnIfNotExists t =>
      match alookup db.tables t with
      | none => db
      | some ts =>
          if ts.hasProjectIdCol then db
          else rlsSetTable db t { ts with hasProjectIdCol := true }
  | RlsStmt.enableRowLevelSecurity t =>
      match alookup db.tables t with
      | none => db
      | some ts =>
          if ts.rlsEnabled then db else rlsSetTable db t { ts with rlsEnabled := true }
  | RlsStmt.createPolicyIfNotExists t name pid =>
      match alookup db.tables t with
      | none => db
      | some ts =>
          match alookup ts.policies name with
          | some _ => db
          | none => rlsSetTable db t { ts with policies := (name, pid) :: ts.policies }

/-- Loop body of `_setup_rls` for one table: builds the three DDL
statements, executes them, and reports which statements were executed
(attempted) against the database. -/
def setup_rls_table (db : RlsDb) (pid : Nat) (t : String) : RlsDb × List RlsStmt :=
  let s1 := RlsStmt.addColumnIfNotExists t
  let s2 := RlsStmt.enableRowLevelSecurity t
  let s3 := RlsStmt.createPolicyIfNotExists t ("project_isolation_" ++ t) pid
  (applyRlsStmt (applyRlsStmt (applyRlsStmt db s1) s2) s3, [s1, s2, s3])

/-- `_setup_rls` in `backend/services/dynamic_db_manager.py`: for each
table in `rlsTables`, add the `project_id` column if missing, enable
row-level security, and create the per-table policy if missing.
Returns the resulting database and the full executed-statement trace. -/
def setup_rls (db : RlsDb) (pid : Nat) : RlsDb × List RlsStmt :=
  rlsTables.foldl
    (fun acc t =>
      let step := setup_rls_table acc.1 pid t
      (step.1, acc.2 ++ step.2))
    (db, [])

/-- Global state: the auth database tables, the in-process engine cache
(`self._project_engines`), the filesystem, the shared hybrid database,
and the id counters. -/
structure GState where
  projects : List Project
  teams : List TeamRow
  users : List UserRow
  engines : List (Nat × Engine)
  fs : List (String × Nat)
  rlsDb : RlsDb
  nextProjectId : Nat
  nextEngineId : Nat
  provisionCount : Nat
deriving DecidableEq, Repr

/-- Write (create or overwrite) a file. -/
def fsWrite (fs : List (String × Nat)) (p : String) (v : Nat) : List (String × Nat) :=
  match fs with
  | [] => [(p, v)]
  | (q, w) :: t => if q = p then (p, v) :: t else (q, w) :: fsWrite t p v

/-- Path of the embedded PyArchInit template database
(`backend/pyarchinit_db.sqlite`). -/
def templatePath : String := "backend/pyarchinit_db.sqlite"

/-- Errors raised by the database-manager layer. -/
inductive DbError where
  | projectNotFound (pid : Nat)
  | sqlitePathMissing
  | postgresKeyMissing (k : String)
  | unknownDbMode (m : String)
  | templateNotFound
deriving DecidableEq, Repr

/-- `_initialize_pyarchinit_db`: raises `FileNotFoundError` when the
template database is absent, otherwise copies it (`shutil.copy2`) to the
target path.  `provisionCount` counts the template copies performed. -/
def initialize_pyarchinit_db (st : GState) (dbPath : String) :
    Except DbError Unit × GState :=
  match alookup st.fs templatePath with
  | none => (Except.error DbError.templateNotFound, st)
  | some data =>
      (Except.ok (), { st with fs := fsWrite st.fs dbPath data,
                               provisionCount := st.provisionCount + 1 })

/-- `_create_sqlite_engine`: requires a truthy `path` in the config
(`None` and the empty string are both falsy), copies the template iff
the target file does not exist, then constructs a fresh engine. -/
def create_sqlite_engine (st : GState) (dbConfig : List (String × String)) :
    Except DbError Engine × GState :=
  match alookup dbConfig "path" with
  | none => (Except.error DbError.sqlitePathMissing, st)
  | some p =>
      if p = "" then (Except.error DbError.sqlitePathMissing, st)
      else
        match alookup st.fs p with
        | some _ =>
            (Except.ok ⟨st.nextEngineId⟩, { st with nextEngineId := st.nextEngineId + 1 })
        | none =>
            match initialize_pyarchinit_db st p with
            | (Except.error err, st1) => (Except.error err, st1)
            | (Except.ok _, st1) =>
                (Except.ok ⟨st1.nextEngineId⟩, { st1 with nextEngineId := st1.nextEngineId + 1 })

/-- The keys `_create_postgres_engine` requires in `db_config`. -/
def postgresRequiredKeys : List String :=
  ["host", "port", "database", "user", "password"]

/-- First required key absent from the config, if any. -/
def firstMissingKey (cfg : List (String × String)) (keys : List String) : Option String :=
  match keys with
  | [] => none
  | k :: t =>
      match alookup cfg k with
      | none => some k
      | some _ => firstMissingKey cfg t

/-- `_create_postgres_engine`: raises for the first missing required
key, otherwise constructs a fresh engine (no provisioning, no schema
work — connecting is lazy in SQLAlchemy). -/
def create_postgres_engine (st : GState) (cfg : List (String × String)) :
    Except DbError Engine × GState :=
  match firstMissingKey cfg postgresRequiredKeys with
  | some k => (Except.error (DbError.postgresKeyMissing k), st)
  | none =>
      (Except.ok ⟨st.nextEngineId⟩, { st with nextEngineId := st.nextEngineId + 1 })

/-- `DynamicDatabaseManager.get_project_db`: serve from the engine cache
when present; otherwise read the project's mode and config from the
registry, build the engine for the mode (running `_setup_rls` for
hybrid), and cache it.  Failures propagate before the cache insert. -/
def get_project_db (st : GState) (pid : Nat) : Except DbError Engine × GState :=
  match alookup st.engines pid with
  | some e => (Except.ok e, st)
  | none =>
      match findProject st.projects pid with
      | none => (Except.error (DbError.projectNotFound pid), st)
      | some proj =>
          if proj.db_mode = "sqlite" then
            match create_sqlite_engine st proj.db_config with
            | (Except.error err, st1) => (Except.error err, st1)
            | (Except.ok e, st1) =>
                (Except.ok e, { st1 with engines := (pid, e) :: st1.engines })
          else if proj.db_mode = "postgres" then
            match create_postgres_engine st proj.db_config with
            | (Except.error err, st1) => (Except.error err, st1)
            | (Except.ok e, st1) =>
                (Except.ok e, { st1 with engines := (pid, e) :: st1.engines })
          else if proj.db_mode = "hybrid" then
            match create_postgres_engine st proj.db_config with
            | (Except.error err, st1) => (Except.error err, st1)
            | (Except.ok e, st1) =>
                let st2 := { st1 with rlsDb := (setup_rls st1.rlsDb pid).1 }
                (Except.ok e, { st2 with engines := (pid, e) :: st2.engines })
          else (Except.error (DbError.unknownDbMode proj.db_mode), st)

/-- `get_current_project` in `backend/dependencies.py`: 400 when no
project id was supplied, then a registry existence check (404), then a
membership check (403), in that order. -/
def get_current_project (st : GState) (uid : Nat) (pidOpt : Option Nat) :
    Except ApiError Nat :=
  match pidOpt with
  | none => Except.error ApiError.projectIdRequired
  | some pid =>
      match findProject st.projects pid with
      | none => Except.error ApiError.projectNotFound
      | some _ =>
          match findMembership st.teams pid uid with
          | none => Except.error ApiError.accessDenied
          | some _ => Except.ok pid

/-- Error of the composed resolution path: a dependency-layer HTTP error
or a manager-layer error. -/
inductive ResolveError where
  | api (e : ApiError)
  | db (e : DbError)
deriving DecidableEq, Repr

/-- The full resolution path a request traverses: `get_current_project`
(validation and access control) followed by
`get_project_db_session` / `get_project_db` (engine lookup). -/
def resolve (st : GState) (uid : Nat) (pidOpt : Option Nat) :
    Except ResolveError Engine × GState :=
  match get_current_project st uid pidOpt with
  | Except.error e => (Except.error (ResolveError.api e), st)
  | Except.ok pid =>
      match get_project_db st pid with
      | (Except.error e, st1) => (Except.error (ResolveError.db e), st1)
      | (Except.ok eng, st1) => (Except.ok eng, st1)

/-- The `SQLiteConfig` pydantic model: `path` is optional. -/
structure SqliteConfig where
  path : Option String
deriving DecidableEq, Repr

/-- The `PostgresConfig` pydantic model. -/
structure PostgresConfig where
  host : String
  port : Nat
  database : String
  user : String
  password : String
deriving DecidableEq, Repr

/-- `PostgresConfig(...).dict()` as the serialized `db_config` object. -/
def PostgresConfig.dict (c : PostgresConfig) : List (String × String) :=
  [("host", c.host), ("port", toString c.port), ("database", c.database),
   ("user", c.user), ("password", c.password)]

/-- `SQLiteConfig(...).dict()`.  A `path` of `None` serializes to a JSON
null, which every modelled read treats like an absent key. -/
def SqliteConfig.dict (c : SqliteConfig) : List (String × String) :=
  match c.path with
  | none => []
  | some p => [("path", p)]

/-- The `ProjectCreate` request model. -/
structure ProjectCreate where
  name : String
  description : Option String
  db_mode : String
  sqlite_config : Option SqliteConfig
  postgres_config : Option PostgresConfig
deriving DecidableEq, Repr

/-- `create_project` in `backend/routes/projects.py`.  The two registry
inserts (the `projects` row and the owner `project_teams` row) are
executed and committed (`db.commit()`, line 227) *before* the SQLite
provisioning step (lines 230-235).  A failure while building the config
happens before any insert and leaves the store untouched; a provisioning
failure happens after the commit, and the `db.rollback()` in the
exception handler has nothing pending to undo, so the committed rows are
part of the returned state. -/
def create_project (st : GState) (uid : Nat) (req : ProjectCreate) :
    Except ApiError Nat × GState :=
  let cfgOpt : Option (List (String × String)) :=
    if req.db_mode = "sqlite" then
      match req.sqlite_config with
      | none => none
      | some c => some c.dict
    else
      match req.postgres_config with
      | none => none
      | some c => some c.dict
  match cfgOpt with
  | none => (Except.error ApiError.internalError, st)
  | some dbConfig =>
      let pid := st.nextProjectId
      let proj : Project := ⟨pid, req.name, req.description, uid, req.db_mode, dbConfig, false⟩
      let ownerRow : TeamRow := ⟨pid, uid, UserRole.owner,
        some [("can_edit", true), ("can_delete", true), ("can_invite", true)]⟩
      let committed : GState :=
        { st with projects := st.projects ++ [proj],
                  teams := st.teams ++ [ownerRow],
                  nextProjectId := pid + 1 }
      if req.db_mode = "sqlite" then
        match alookup dbConfig "path" with
        | none => (Except.error ApiError.internalError, committed)
        | some p =>
            if p = "" then (Except.error ApiError.internalError, committed)
            else
              match alookup committed.fs p with
              | some _ => (Except.ok pid, committed)
              | none =>
                  match initialize_pyarchinit_db committed p with
                  | (Except.error _, st1) => (Except.error ApiError.internalError, st1)
                  | (Except.ok _, st1) => (Except.ok pid, st1)
      else (Except.ok pid, committed)

/-- The `AddTeamMemberRequest` model. -/
structure AddTeamMemberRequest where
  email : String
  role : UserRole
  permissions : Option ProjectPermissions
deriving DecidableEq, Repr

/-- `add_team_member` in `backend/routes/projects.py`, with the pydantic
role validator (owner role rejected at the boundary) folded in front. -/
def add_team_member (st : GState) (callerUid pid : Nat) (req : AddTeamMemberRequest) :
    Except ApiError TeamRow × GState :=
  if req.role = UserRole.owner then (Except.error ApiError.ownerRoleRejected, st)
  else if ¬ check_permission st.teams pid callerUid "can_invite" then
    (Except.error ApiError.permissionDenied, st)
  else
    match findUserByEmail st.users req.email with
    | none => (Except.error ApiError.userNotFoundByEmail, st)
    | some u =>
        match findMembership st.teams pid u.id with
        | some _ => (Except.error ApiError.alreadyMember, st)
        | none =>
            let perms : List (String × Bool) :=
              match req.permissions with
              | some pp => pp.dict
              | none => defaultPermissionsFor req.role
            let row : TeamRow := ⟨pid, u.id, req.role, some perms⟩
            (Except.ok row, { st with teams := st.teams ++ [row] })

/-- `remove_team_member` in `backend/routes/projects.py`: caller needs
`can_invite`; the target is compared against `projects.owner_id` before
any row is deleted; the delete commits and then a zero rowcount is
reported as 404. -/
def remove_team_member (st : GState) (callerUid pid targetUid : Nat) :
    Except ApiError Unit × GState :=
  if ¬ check_permission st.teams pid callerUid "can_invite" then
    (Except.error ApiError.permissionDenied, st)
  else
    match findProject st.projects pid with
    | none => (Except.error ApiError.projectNotFound, st)
    | some proj =>
        if proj.owner_id = targetUid then (Except.error ApiError.cannotRemoveOwner, st)
        else
          let remaining := st.teams.filter
            (fun m => ¬ (m.project_id = pid ∧ m.user_id = targetUid))
          if remaining.length = st.teams.length then
            (Except.error ApiError.memberNotFound, { st with teams := remaining })
          else (Except.ok (), { st with teams := remaining })

/-- The `UpdateTeamMemberRequest` model (`backend/models/projects.py`):
optional new role and permissions; its validator rejects `owner`. -/
structure UpdateTeamMemberRequest where
  role : Option UserRole
  permissions : Option ProjectPermissions
deriving DecidableEq, Repr

/-- Modelled from the spec: the repository declares
`UpdateTeamMemberRequest` (with its owner-rejecting validator, which is
kept here) but ships no update endpoint under `backend/routes/`; what is
missing is the route handler itself.  Per spec §4.1,
`updateMembership(tenant, principal, role?, permissions?)` fails with
`CannotModifyOwner` if the principal is the tenant's owner, and
otherwise updates the membership row's role/permissions. -/
def update_team_member (st : GState) (pid targetUid : Nat) (req : UpdateTeamMemberRequest) :
    Except ApiError Unit × GState :=
  if req.role = some UserRole.owner then (Except.error ApiError.ownerRoleRejected, st)
  else
    match findProject st.projects pid with
    | none => (Except.error ApiError.projectNotFound, st)
    | some proj =>
        if proj.owner_id = targetUid then (Except.error ApiError.cannotModifyOwner, st)
        else
          match findMembership st.teams pid targetUid with
          | none => (Except.error ApiError.memberNotFound, st)
          | some _ =>
              let newTeams := st.teams.map (fun m =>
                if m.project_id = pid ∧ m.user_id = targetUid then
                  { m with
                    role := req.role.getD m.role,
                    permissions :=
                      match req.permissions with
                      | some pp => some pp.dict
                      | none => m.permissions }
                else m)
              (Except.ok (), { st with teams := newTeams })

/-- One call through the membership-management API. -/
inductive TeamOp where
  | removeOp (caller pid target : Nat)
  | updateOp (pid target : Nat) (req : UpdateTeamMemberRequest)
deriving DecidableEq, Repr

/-- The state after a membership-management call (whatever its result). -/
def applyTeamOp (st : GState) (op : TeamOp) : GState :=
  match op with
  | TeamOp.removeOp c p t => (remove_team_member st c p t).2
  | TeamOp.updateOp p t r => (update_team_member st p t r).2

/-- The state after a sequence of membership-management calls. -/
def applyTeamOps (st : GState) (ops : List TeamOp) : GState :=
  ops.foldl applyTeamOp st

/-- The owner membership of project `pid` is intact: the project is in
the registry and a membership row for its owner with role `owner` is in
the membership table. -/
def ownerRowIntact (st : GState) (pid : Nat) : Prop :=
  ∃ proj, findProject st.projects pid = some proj ∧
    ∃ m, m ∈ st.teams ∧ m.project_id = pid ∧ m.user_id = proj.owner_id ∧
      m.role = UserRole.owner

/-!
Interleaving model of concurrent calls to `get_project_db` (embedded
mode).  `get_project_db` runs synchronously in worker threads sharing
`self._project_engines` and the filesystem, with no lock of any kind.
One caller's execution is split at its observable shared-state accesses:
the cache lookup plus registry read (fused — fusing consecutive steps of
one caller only removes interleavings, so every behaviour of this
machine is a behaviour of the finer real one), the `os.path.exists`
check, the `shutil.copy2` template copy, and the engine construction
plus cache insert.
-/

/-- Program counter of one in-flight `get_project_db(pid)` call. -/
inductive CallerPhase where
  | start
  | haveConfig (path : String)
  | needCopy (path : String)
  | ready (path : String)
  | finished (e : Engine)
  | failed (err : DbError)
deriving DecidableEq, Repr

/-- One atomic step of a caller executing `get_project_db pid` for a
`sqlite`-mode project.  Completed callers stay put. -/
def callerStep (st : GState) (pid : Nat) (ph : CallerPhase) : GState × CallerPhase :=
  match ph with
  | CallerPhase.start =>
      match alookup st.engines pid with
      | some e => (st, CallerPhase.finished e)
      | none =>
          match findProject st.projects pid with
          | none => (st, CallerPhase.failed (DbError.projectNotFound pid))
          | some proj =>
              if proj.db_mode = "sqlite" then
                match alookup proj.db_config "path" with
                | none => (st, CallerPhase.failed DbError.sqlitePathMissing)
                | some p =>
                    if p = "" then (st, CallerPhase.failed DbError.sqlitePathMissing)
                    else (st, CallerPhase.haveConfig p)
              else (st, CallerPhase.failed (DbError.unknownDbMode proj.db_mode))
  | CallerPhase.haveConfig p =>
      match alookup st.fs p with
      | some _ => (st, CallerPhase.ready p)
      | none => (st, CallerPhase.needCopy p)
  | CallerPhase.needCopy p =>
      match alookup st.fs templatePath with
      | none => (st, CallerPhase.failed DbError.templateNotFound)
      | some data =>
          ({ st with fs := fsWrite st.fs p data,
                     provisionCount := st.provisionCount + 1 },
           CallerPhase.ready p)
  | CallerPhase.ready _ =>
      let e : Engine := ⟨st.nextEngineId⟩
      ({ st with nextEngineId := st.nextEngineId + 1,
                 engines := (pid, e) :: st.engines },
       CallerPhase.finished e)
  | CallerPhase.finished e => (st, CallerPhase.finished e)
  | CallerPhase.failed err => (st, CallerPhase.failed err)

/-- Two concurrent callers over the shared process state. -/
structure TwoCallers where
  shared : GState
  c1 : CallerPhase
  c2 : CallerPhase
deriving DecidableEq, Repr

/-- Run one step of the scheduled caller (`true` = caller 1). -/
def schedStep (s : TwoCallers) (pid : Nat) (who : Bool) : TwoCallers :=
  if who then
    let r := callerStep s.shared pid s.c1
    { s with shared := r.1, c1 := r.2 }
  else
    let r := callerStep s.shared pid s.c2
    { s with shared := r.1, c2 := r.2 }

/-- Run a schedule (a list of caller choices). -/
def runSched (s : TwoCallers) (pid : Nat) (sched : List Bool) : TwoCallers :=
  sched.foldl (fun acc w => schedStep acc pid w) s

deriving instance DecidableEq for Except

/-! Concrete states used to instantiate the theorems below. -/

/-- An empty shared PostgreSQL database. -/
def rlsDbEmpty : RlsDb := ⟨[]⟩

/-- Empty control plane, empty cache, empty filesystem (in particular the
template database file is absent). -/
def emptyState : GState :=
  { projects := [], teams := [], users := [], engines := [], fs := [],
    rlsDb := rlsDbEmpty, nextProjectId := 1, nextEngineId := 0, provisionCount := 0 }

/-- The membership table of the spec's permission-matrix example: user 2
is a `member` of project 1 with `{can_edit: true, can_delete: false}`. -/
def exTeamsC2 : List TeamRow :=
  [⟨1, 2, UserRole.member, some [("can_edit", true), ("can_delete", false)]⟩]

/-- A registry holding one embedded-mode project owned by user 1, with
user 2 as a plain member; both users exist; template file present. -/
def exState : GState :=
  { projects := [⟨1, "proj1", none, 1, "sqlite", [("path", "/data/proj1.db")], false⟩],
    teams := [⟨1, 1, UserRole.owner,
                some [("can_edit", true), ("can_delete", true), ("can_invite", true)]⟩,
              ⟨1, 2, UserRole.member, none⟩],
    users := [⟨1, "owner@example.com"⟩, ⟨2, "member@example.com"⟩, ⟨3, "viewer@example.com"⟩],
    engines := [], fs := [(templatePath, 42)], rlsDb := rlsDbEmpty,
    nextProjectId := 2, nextEngineId := 0, provisionCount := 0 }

/-! ## C2 — permission-check algorithm -/

/-- C2: for every permission check on a (principal, tenant, permission)
triple, both `_check_permission` and `require_project_permission` deny
when the principal has no membership row for the tenant; pass
unconditionally when the membership role is `owner` or `admin`,
regardless of the stored permission map; and otherwise pass exactly when
the named permission is true in the stored permission set, which
defaults to false when the key is absent or the map is empty/NULL. -/
theorem C2_permission_algorithm (ms : List TeamRow) (pid uid : Nat) (perm : String) :
    (findMembership ms pid uid = none →
      check_permission ms pid uid perm = false ∧
      require_project_permission ms perm pid uid = Except.error ApiError.accessDenied) ∧
    (∀ m, findMembership ms pid uid = some m →
      (m.role = UserRole.owner ∨ m.role = UserRole.admin) →
      check_permission ms pid uid perm = true ∧
      require_project_permission ms perm pid uid = Except.ok true) ∧
    (∀ m, findMembership ms pid uid = some m →
      ¬ m.role = UserRole.owner → ¬ m.role = UserRole.admin →
      check_permission ms pid uid perm = permGet (m.permissions.getD []) perm) ∧
    (∀ ps, alookup ps perm = none → permGet ps perm = false) ∧
    permGet [] perm = false := by
  refine ⟨?_, ?_, ?_, ?_, rfl⟩
  · intro h
    simp [check_permission, get_user_permissions, require_project_permission, h]
  · intro m hm hrole
    simp [check_permission, get_user_permissions, require_project_permission, hm, hrole]
  · intro m hm h1 h2
    simp [check_permission, get_user_permissions, require_project_permission, hm, h1, h2]
  · intro ps h
    simp [permGet, h]

/-- Witness for C2 at the spec's permission-matrix example: a `member`
with `{can_edit: true, can_delete: false}` fails the `can_delete`
check. -/
theorem C2_permission_algorithm_witness :
    check_permission exTeamsC2 1 2 "can_delete" = false := by
  have h := (C2_permission_algorithm exTeamsC2 1 2 "can_delete").2.2.1
    ⟨1, 2, UserRole.member, some [("can_edit", true), ("can_delete", false)]⟩
    (by decide) (by decide) (by decide)
  rw [h]
  decide

/-! ## C5 — order of authorization and registry lookup in resolve -/

/-- C5 counterexample: principal 1 has no membership row for tenant 7
(the claimed authorize-first algorithm would fail fast with
`AccessDenied`), yet `get_current_project` answers `projectNotFound` —
the registry existence lookup runs first, not authorization. -/
theorem C5_counterexample :
    findMembership emptyState.teams 7 1 = none ∧
    get_current_project emptyState 1 (some 7) = Except.error ApiError.projectNotFound ∧
    ¬ get_current_project emptyState 1 (some 7) = Except.error ApiError.accessDenied := by
  decide

/-- C5 (amended): `get_current_project` performs the registry lookup
*before* the membership check: an absent tenant fails with 404
`projectNotFound` regardless of the principal's memberships; only a
request for an existing tenant proceeds to the membership check, which
fails with 403 `accessDenied` when the principal has no membership row
and succeeds otherwise. -/
theorem C5_lookup_before_authorize (st : GState) (uid pid : Nat) :
    (findProject st.projects pid = none →
      get_current_project st uid (some pid) = Except.error ApiError.projectNotFound) ∧
    (∀ proj, findProject st.projects pid = some proj →
      findMembership st.teams pid uid = none →
      get_current_project st uid (some pid) = Except.error ApiError.accessDenied) ∧
    (∀ proj m, findProject st.projects pid = some proj →
      findMembership st.teams pid uid = some m →
      get_current_project st uid (some pid) = Except.ok pid) := by
  refine ⟨?_, ?_, ?_⟩
  · intro h
    simp [get_current_project, h]
  · intro proj hp hm
    simp [get_current_project, hp, hm]
  · intro proj m hp hm
    simp [get_current_project, hp, hm]

/-- Witness for the amended C5 statement. -/
theorem C5_lookup_before_authorize_witness :
    get_current_project emptyState 1 (some 7) = Except.error ApiError.projectNotFound :=
  (C5_lookup_before_authorize emptyState 1 7).1 (by decide)

/-! ## C9 — unknown tenant id -/

/-- C9: for every tenant id with no row in the control-plane registry,
the resolution path fails with 404 `projectNotFound` and returns the
process state unchanged — no handle is constructed, nothing enters the
cache, and no file is written. -/
theorem C9_absent_tenant (st : GState) (uid pid : Nat)
    (h : findProject st.projects pid = none) :
    resolve st uid (some pid) =
      (Except.error (ResolveError.api ApiError.projectNotFound), st) := by
  simp [resolve, get_current_project, h]

/-- Witness for C9 at a concrete absent tenant id. -/
theorem C9_absent_tenant_witness :
    resolve emptyState 1 (some 7) =
      (Except.error (ResolveError.api ApiError.projectNotFound), emptyState) :=
  C9_absent_tenant emptyState 1 7 (by decide)

/-! ## C10 — implicit role-derived default permissions -/

/-- The three derived defaults, characterized per role. -/
theorem defaultPermissionsFor_spec (r : UserRole) :
    (permGet (defaultPermissionsFor r) "can_edit" = true ↔
      (r = UserRole.admin ∨ r = UserRole.member)) ∧
    (permGet (defaultPermissionsFor r) "can_delete" = true ↔ r = UserRole.admin) ∧
    (permGet (defaultPermissionsFor r) "can_invite" = true ↔ r = UserRole.admin) := by
  cases r <;> refine ⟨?_, ?_, ?_⟩ <;> simp <;> decide

/-- C10: when a team member is added without an explicit permission set,
`add_team_member` stores permissions derived from the requested role —
`can_edit` iff `admin` or `member`, `can_delete` iff `admin`,
`can_invite` iff `admin` — so a `viewer` added without explicit
permissions gets all three false, even though the `ProjectPermissions`
model declares `can_edit` to default to true. -/
theorem C10_default_permissions (st : GState) (callerUid pid : Nat)
    (req : AddTeamMemberRequest) (u : UserRow)
    (hrole : ¬ req.role = UserRole.owner)
    (hperm : req.permissions = none)
    (hinv : check_permission st.teams pid callerUid "can_invite" = true)
    (huser : findUserByEmail st.users req.email = some u)
    (hnew : findMembership st.teams pid u.id = none) :
    (add_team_member st callerUid pid req).1 =
      Except.ok ⟨pid, u.id, req.role, some (defaultPermissionsFor req.role)⟩ ∧
    (permGet (defaultPermissionsFor req.role) "can_edit" = true ↔
      (req.role = UserRole.admin ∨ req.role = UserRole.member)) ∧
    (permGet (defaultPermissionsFor req.role) "can_delete" = true ↔
      req.role = UserRole.admin) ∧
    (permGet (defaultPermissionsFor req.role) "can_invite" = true ↔
      req.role = UserRole.admin) ∧
    ({} : ProjectPermissions).can_edit = true := by
  have hd := defaultPermissionsFor_spec req.role
  refine ⟨?_, hd.1, hd.2.1, hd.2.2, rfl⟩
  simp [add_team_member, hrole, hperm, hinv, huser, hnew]

/-- Witness for C10: the owner of `exState` adds user 3 as a `viewer`
without explicit permissions; the stored row carries the role-derived
defaults, whose `can_edit` is false. -/
theorem C10_default_permissions_witness :
    (add_team_member exState 1 1 ⟨"viewer@example.com", UserRole.viewer, none⟩).1 =
      Except.ok ⟨1, 3, UserRole.viewer, some (defaultPermissionsFor UserRole.viewer)⟩ ∧
    permGet (defaultPermissionsFor UserRole.viewer) "can_edit" = false := by
  have h := C10_default_permissions exState 1 1
    ⟨"viewer@example.com", UserRole.viewer, none⟩ ⟨3, "viewer@example.com"⟩
    (by decide) rfl (by decide) (by decide) (by decide)
  exact ⟨h.1, by decide⟩

/-! ## C4 — the cache admits only successful resolutions -/

/-- A failing `_create_sqlite_engine` leaves the state unchanged. -/
theorem create_sqlite_engine_error (st : GState) (cfg : List (String × String))
    (err : DbError) (st1 : GState)
    (h : create_sqlite_engine st cfg = (Except.error err, st1)) : st1 = st := by
  unfold create_sqlite_engine at h
  cases hp : alookup cfg "path" with
  | none =>
      simp only [hp] at h
      injection h with h1 h2
      exact h2.symm
  | some p =>
      simp only [hp] at h
      by_cases hne : p = ""
      · rw [if_pos hne] at h
        injection h with h1 h2
        exact h2.symm
      · rw [if_neg hne] at h
        cases hf : alookup st.fs p with
        | some c =>
            simp only [hf] at h
            injection h with h1 h2
            injection h1
        | none =>
            simp only [hf] at h
            unfold initialize_pyarchinit_db at h
            cases ht : alookup st.fs templatePath with
            | none =>
                simp only [ht] at h
                injection h with h1 h2
                exact h2.symm
            | some d =>
                simp only [ht] at h
                injection h with h1 h2
                injection h1

/-- A failing `_create_postgres_engine` leaves the state unchanged. -/
theorem create_postgres_engine_error (st : GState) (cfg : List (String × String))
    (err : DbError) (st1 : GState)
    (h : create_postgres_engine st cfg = (Except.error err, st1)) : st1 = st := by
  unfold create_postgres_engine at h
  cases hk : firstMissingKey cfg postgresRequiredKeys with
  | some k =>
      simp only [hk] at h
      injection h with h1 h2
      exact h2.symm
  | none =>
      simp only [hk] at h
      injection h with h1 h2
      injection h1

/-- Looking up the key just inserted at the head. -/
theorem alookup_cons_self {α β : Type} [DecidableEq α] (k : α) (v : β)
    (l : List (α × β)) : alookup ((k, v) :: l) k = some v := by
  simp [alookup]

set_option maxHeartbeats 1000000 in
/-- A failing `get_project_db` leaves the whole state unchanged. -/
theorem get_project_db_error (st : GState) (pid : Nat) (err : DbError) (st1 : GState)
    (h : get_project_db st pid = (Except.error err, st1)) : st1 = st := by
  unfold get_project_db at h
  repeat' split at h
  all_goals injection h with ha hb
  all_goals try (injection ha; done)
  all_goals try exact hb.symm
  all_goals rename_i heq
  all_goals first
    | exact hb ▸ create_sqlite_engine_error _ _ _ _ heq
    | exact hb ▸ create_postgres_engine_error _ _ _ _ heq

set_option maxHeartbeats 1000000 in
/-- A successful `get_project_db` leaves the handle in the cache. -/
theorem get_project_db_ok_cached (st : GState) (pid : Nat) (e : Engine) (st1 : GState)
    (h : get_project_db st pid = (Except.ok e, st1)) :
    alookup st1.engines pid = some e := by
  unfold get_project_db at h
  repeat' split at h
  all_goals injection h with ha hb
  all_goals try (injection ha; done)
  all_goals injection ha with ha2
  all_goals rename_i heq
  all_goals try (rw [← hb, heq, ha2])
  all_goals (rw [← hb, ← ha2]; exact alookup_cons_self _ _ _)

/-- C4: the per-tenant handle cache admits only successful resolutions.
A `get_project_db` call that fails (invalid config, provisioning error,
unknown backing mode) inserts nothing into the cache — the state is
returned unchanged, so the next caller retries from scratch — while
after a success every subsequent call for the same tenant id returns the
identical cached engine with the state (hence the provision count and
the isolation state) untouched. -/
theorem C4_cache_success_only (st : GState) (pid : Nat) :
    (∀ err st1, get_project_db st pid = (Except.error err, st1) →
      st1 = st) ∧
    (∀ e st1, get_project_db st pid = (Except.ok e, st1) →
      get_project_db st1 pid = (Except.ok e, st1)) := by
  constructor
  · intro err st1 h
    exact get_project_db_error st pid err st1 h
  · intro e st1 h
    have hc := get_project_db_ok_cached st pid e st1 h
    unfold get_project_db
    simp only [hc]

/-- Witness for C4: from `exState`, the first resolve of project 1
provisions and caches engine 0; resolving again in the resulting state
returns the identical engine and does not change the state; and a
failing resolve (`emptyState` knows no project 1) changes nothing. -/
theorem C4_cache_success_only_witness :
    get_project_db ((get_project_db exState 1).2) 1 =
      (Except.ok ⟨0⟩, (get_project_db exState 1).2) ∧
    (get_project_db emptyState 1).2 = emptyState := by
  constructor
  · exact (C4_cache_success_only exState 1).2 ⟨0⟩ ((get_project_db exState 1).2) (by decide)
  · exact (C4_cache_success_only emptyState 1).1 (DbError.projectNotFound 1)
      ((get_project_db emptyState 1).2) (by decide)

/-! ## C6 — embedded provisioning idempotence -/

/-- Reading back a just-written file. -/
theorem alookup_fsWrite_self (fs : List (String × Nat)) (p : String) (v : Nat) :
    alookup (fsWrite fs p v) p = some v := by
  induction fs with
  | nil => simp [fsWrite, alookup]
  | cons hd t ih =>
      obtain ⟨q, w⟩ := hd
      by_cases hq : q = p
      · simp [fsWrite, alookup, hq]
      · simp [fsWrite, alookup, hq, ih]

/-- C6: embedded provisioning is idempotent and non-destructive.  If the
target file exists, `_create_sqlite_engine` performs no copy and
succeeds with the filesystem (hence the file's contents) unchanged; from
a fresh state, two provisioning calls perform exactly one template copy,
the second altering neither the filesystem nor the copy count. -/
theorem C6_embedded_idempotent (st : GState) (cfg : List (String × String)) (p : String)
    (hpath : alookup cfg "path" = some p) (hne : ¬ p = "") :
    (∀ c, alookup st.fs p = some c →
      create_sqlite_engine st cfg =
        (Except.ok ⟨st.nextEngineId⟩, { st with nextEngineId := st.nextEngineId + 1 })) ∧
    (∀ d, alookup st.fs p = none → alookup st.fs templatePath = some d →
      ∃ e1 st1, create_sqlite_engine st cfg = (Except.ok e1, st1) ∧
        st1.provisionCount = st.provisionCount + 1 ∧
        alookup st1.fs p = some d ∧
        create_sqlite_engine st1 cfg =
          (Except.ok ⟨st1.nextEngineId⟩, { st1 with nextEngineId := st1.nextEngineId + 1 })) := by
  constructor
  · intro c hc
    simp [create_sqlite_engine, hpath, hne, hc]
  · intro d habsent htmpl
    refine ⟨⟨st.nextEngineId⟩,
      { st with fs := fsWrite st.fs p d, provisionCount := st.provisionCount + 1,
                nextEngineId := st.nextEngineId + 1 }, ?_, rfl, ?_, ?_⟩
    · simp [create_sqlite_engine, hpath, hne, habsent, initialize_pyarchinit_db, htmpl]
    · exact alookup_fsWrite_self st.fs p d
    · simp [create_sqlite_engine, hpath, hne, alookup_fsWrite_self st.fs p d]

/-- Witness for C6: provisioning project 1's database twice from
`exState` (template present, target absent) copies the template once;
the second call leaves the filesystem and the copy count unchanged. -/
theorem C6_embedded_idempotent_witness :
    ∃ e1 st1, create_sqlite_engine exState [("path", "/data/proj1.db")] =
        (Except.ok e1, st1) ∧
      st1.provisionCount = exState.provisionCount + 1 ∧
      alookup st1.fs "/data/proj1.db" = some 42 ∧
      create_sqlite_engine st1 [("path", "/data/proj1.db")] =
        (Except.ok ⟨st1.nextEngineId⟩, { st1 with nextEngineId := st1.nextEngineId + 1 }) :=
  (C6_embedded_idempotent exState [("path", "/data/proj1.db")] "/data/proj1.db"
    (by decide) (by decide)).2 42 (by decide) (by decide)


/-! ## C7 — isolation setup idempotence and its mechanism -/

/-- Table `t` is already isolated: it has the tenant-scope column,
row-level security is enabled, and the per-table policy is installed. -/
def tableIsolatedB (db : RlsDb) (t : String) : Bool :=
  match alookup db.tables t with
  | none => false
  | some ts =>
      ts.hasProjectIdCol && ts.rlsEnabled &&
        (alookup ts.policies ("project_isolation_" ++ t)).isSome

/-- On an already-isolated table each of the three DDL statements is a
state no-op. -/
theorem applyRlsStmt_isolated_noop (db : RlsDb) (t : String) (pid : Nat)
    (h : tableIsolatedB db t = true) :
    applyRlsStmt db (RlsStmt.addColumnIfNotExists t) = db ∧
    applyRlsStmt db (RlsStmt.enableRowLevelSecurity t) = db ∧
    applyRlsStmt db (RlsStmt.createPolicyIfNotExists t ("project_isolation_" ++ t) pid)
      = db := by
  unfold tableIsolatedB at h
  cases hts : alookup db.tables t with
  | none => rw [hts] at h; exact absurd h (by simp)
  | some ts =>
      rw [hts] at h
      simp only [Bool.and_eq_true] at h
      obtain ⟨⟨hcol, hrls⟩, hpol⟩ := h
      obtain ⟨pv, hpv⟩ := Option.isSome_iff_exists.mp hpol
      refine ⟨?_, ?_, ?_⟩ <;> simp [applyRlsStmt, hts, hcol, hrls, hpv]

/-- On an already-isolated table the `_setup_rls` loop body leaves the
database unchanged but still executes all three statements. -/
theorem setup_rls_table_isolated (db : RlsDb) (pid : Nat) (t : String)
    (h : tableIsolatedB db t = true) :
    setup_rls_table db pid t =
      (db, [RlsStmt.addColumnIfNotExists t, RlsStmt.enableRowLevelSecurity t,
            RlsStmt.createPolicyIfNotExists t ("project_isolation_" ++ t) pid]) := by
  have h3 := applyRlsStmt_isolated_noop db t pid h
  simp [setup_rls_table, h3.1, h3.2.1, h3.2.2]

/-- The statement trace `_setup_rls` executes on every run: the three
DDL statements for each of the five tables, unconditionally. -/
def rlsAttemptTrace (pid : Nat) : List RlsStmt :=
  rlsTables.foldl
    (fun acc t =>
      acc ++ [RlsStmt.addColumnIfNotExists t, RlsStmt.enableRowLevelSecurity t,
              RlsStmt.createPolicyIfNotExists t ("project_isolation_" ++ t) pid])
    []

/-- A shared database in which all five tables are isolated for
tenant 3. -/
def isolatedDb : RlsDb :=
  ⟨[("us_table", ⟨true, true, [("project_isolation_us_table", 3)]⟩),
    ("inventario_materiali_table",
      ⟨true, true, [("project_isolation_inventario_materiali_table", 3)]⟩),
    ("pottery_table", ⟨true, true, [("project_isolation_pottery_table", 3)]⟩),
    ("media_table", ⟨true, true, [("project_isolation_media_table", 3)]⟩),
    ("mobile_notes", ⟨true, true, [("project_isolation_mobile_notes", 3)]⟩)]⟩

/-- C7 counterexample: on `isolatedDb`, where every (tenant, table) pair
is already isolated, re-running `_setup_rls` is indeed a state no-op —
but the executed DDL trace still contains the column-add and
policy-create statements for the already-isolated `us_table`.  The
claimed mechanism ("checking for the existing tenant-scope column and
filter policy before attempting to create them, not attempting creation
and discarding the resulting error") is refuted: creation is attempted
on every run, and the loop's exception handler discards errors whose
message contains "already exists". -/
theorem C7_counterexample :
    (setup_rls isolatedDb 3).1 = isolatedDb ∧
    RlsStmt.addColumnIfNotExists "us_table" ∈ (setup_rls isolatedDb 3).2 ∧
    RlsStmt.createPolicyIfNotExists "us_table" "project_isolation_us_table" 3 ∈
      (setup_rls isolatedDb 3).2 := by
  decide

/-- C7 (amended): re-applying `_setup_rls` to tenant tables that are all
already isolated is a no-op on the database state, but the
implementation still executes (attempts) the `ADD COLUMN IF NOT
EXISTS`, `ENABLE ROW LEVEL SECURITY` and `CREATE POLICY IF NOT EXISTS`
statements for every table on every run: idempotence comes from the
statements' IF-NOT-EXISTS semantics together with the handler that
discards "already exists" errors, not from a pre-check that avoids
attempting creation. -/
theorem C7_rls_idempotent_but_attempts (db : RlsDb) (pid : Nat)
    (h : ∀ t ∈ rlsTables, tableIsolatedB db t = true) :
    (setup_rls db pid).1 = db ∧
    (setup_rls db pid).2 = rlsAttemptTrace pid ∧
    ∀ t ∈ rlsTables,
      RlsStmt.createPolicyIfNotExists t ("project_isolation_" ++ t) pid
        ∈ (setup_rls db pid).2 := by
  have h1 := setup_rls_table_isolated db pid "us_table" (h _ (by simp [rlsTables]))
  have h2 := setup_rls_table_isolated db pid "inventario_materiali_table"
    (h _ (by simp [rlsTables]))
  have h3 := setup_rls_table_isolated db pid "pottery_table" (h _ (by simp [rlsTables]))
  have h4 := setup_rls_table_isolated db pid "media_table" (h _ (by simp [rlsTables]))
  have h5 := setup_rls_table_isolated db pid "mobile_notes" (h _ (by simp [rlsTables]))
  have hrun : setup_rls db pid = (db, rlsAttemptTrace pid) := by
    simp [setup_rls, rlsTables, rlsAttemptTrace, h1, h2, h3, h4, h5]
  refine ⟨by rw [hrun], by rw [hrun], ?_⟩
  intro t ht
  rw [hrun]
  simp only [rlsTables, List.mem_cons, List.mem_singleton] at ht
  rcases ht with rfl | rfl | rfl | rfl | rfl | hfalse
  · simp [rlsAttemptTrace, rlsTables]
  · simp [rlsAttemptTrace, rlsTables]
  · simp [rlsAttemptTrace, rlsTables]
  · simp [rlsAttemptTrace, rlsTables]
  · simp [rlsAttemptTrace, rlsTables]
  · exact absurd hfalse (by simp)

/-- Witness for the amended C7 statement at the isolated database. -/
theorem C7_rls_idempotent_but_attempts_witness :
    (setup_rls isolatedDb 3).1 = isolatedDb ∧
    (setup_rls isolatedDb 3).2 = rlsAttemptTrace 3 := by
  have h := C7_rls_idempotent_but_attempts isolatedDb 3 (by decide)
  exact ⟨h.1, h.2.1⟩

/-! ## C8 — concurrent first access -/

/-- Initial two-caller system over `exState` (brand-new embedded
tenant 1: registry row present, cache empty, target file absent,
template present). -/
def twoStart : TwoCallers := ⟨exState, CallerPhase.start, CallerPhase.start⟩

/-- C8 counterexample: `get_project_db` takes no per-tenant lock, so the
lockstep interleaving of two first-accesses to brand-new tenant 1 runs
the template copy twice (`provisionCount = 2`, not the claimed exactly
one provisioning), and the two callers finish holding engines 0 and 1 —
not the same reference-identical cached handle. -/
theorem C8_counterexample :
    (runSched twoStart 1 [true, false, true, false, true, false, true, false]).shared.provisionCount = 2 ∧
    (runSched twoStart 1 [true, false, true, false, true, false, true, false]).c1 =
      CallerPhase.finished ⟨0⟩ ∧
    (runSched twoStart 1 [true, false, true, false, true, false, true, false]).c2 =
      CallerPhase.finished ⟨1⟩ ∧
    ¬ (⟨0⟩ : Engine) = (⟨1⟩ : Engine) := by
  decide

/-- C8 (amended): there is no lock; when the two first-accesses do not
interleave (the first caller runs to completion before the second
starts), provisioning runs exactly once and the second caller is served
the first caller's engine from the cache — but an interleaved schedule
can provision twice and hand the callers distinct engines. -/
theorem C8_no_lock_sequential_only (st : GState) (pid : Nat) (proj : Project)
    (p : String) (d : Nat)
    (hcache : alookup st.engines pid = none)
    (hproj : findProject st.projects pid = some proj)
    (hmode : proj.db_mode = "sqlite")
    (hpath : alookup proj.db_config "path" = some p)
    (hne : ¬ p = "")
    (hfile : alookup st.fs p = none)
    (htmpl : alookup st.fs templatePath = some d) :
    (runSched ⟨st, CallerPhase.start, CallerPhase.start⟩ pid
        [true, true, true, true, false]).c1 =
      CallerPhase.finished ⟨st.nextEngineId⟩ ∧
    (runSched ⟨st, CallerPhase.start, CallerPhase.start⟩ pid
        [true, true, true, true, false]).c2 =
      CallerPhase.finished ⟨st.nextEngineId⟩ ∧
    (runSched ⟨st, CallerPhase.start, CallerPhase.start⟩ pid
        [true, true, true, true, false]).shared.provisionCount =
      st.provisionCount + 1 := by
  refine ⟨?_, ?_, ?_⟩ <;>
    simp [runSched, schedStep, callerStep, hcache, hproj, hmode, hpath, hne, hfile,
      htmpl, alookup_cons_self]

/-- Witness for the amended C8 statement at the concrete `exState`. -/
theorem C8_no_lock_sequential_only_witness :
    (runSched ⟨exState, CallerPhase.start, CallerPhase.start⟩ 1
        [true, true, true, true, false]).c1 =
      CallerPhase.finished ⟨exState.nextEngineId⟩ ∧
    (runSched ⟨exState, CallerPhase.start, CallerPhase.start⟩ 1
        [true, true, true, true, false]).c2 =
      CallerPhase.finished ⟨exState.nextEngineId⟩ ∧
    (runSched ⟨exState, CallerPhase.start, CallerPhase.start⟩ 1
        [true, true, true, true, false]).shared.provisionCount =
      exState.provisionCount + 1 :=
  C8_no_lock_sequential_only exState 1
    ⟨1, "proj1", none, 1, "sqlite", [("path", "/data/proj1.db")], false⟩
    "/data/proj1.db" 42 (by decide) (by decide) (by decide) (by decide) (by decide)
    (by decide) (by decide)

/-! ## C1 — tenant creation is not all-or-nothing -/

/-- Appending a row whose id is not yet present makes it findable. -/
theorem findProject_append_fresh (l : List Project) (proj : Project) (pid : Nat)
    (h : findProject l pid = none) (hid : proj.id = pid) :
    findProject (l ++ [proj]) pid = some proj := by
  induction l with
  | nil => simp [findProject, hid]
  | cons a t ih =>
      simp only [findProject, List.cons_append] at h ⊢
      by_cases ha : a.id = pid
      · simp [ha] at h
      · simp only [ha, if_false] at h ⊢
        exact ih h

/-- Appending a membership row for a (project, user) pair not yet
present makes it findable. -/
theorem findMembership_append_fresh (l : List TeamRow) (row : TeamRow) (pid uid : Nat)
    (h : findMembership l pid uid = none)
    (hp : row.project_id = pid) (hu : row.user_id = uid) :
    findMembership (l ++ [row]) pid uid = some row := by
  induction l with
  | nil => simp [findMembership, hp, hu]
  | cons a t ih =>
      simp only [findMembership, List.cons_append] at h ⊢
      by_cases ha : a.project_id = pid ∧ a.user_id = uid
      · simp [ha] at h
      · simp only [ha, if_false] at h ⊢
        exact ih h

/-- The create-project request of the spec scenario: embedded tenant
`proj1` backed by `/data/proj1.db`. -/
def c1Req : ProjectCreate :=
  { name := "proj1", description := none, db_mode := "sqlite",
    sqlite_config := some ⟨some "/data/proj1.db"⟩, postgres_config := none }

/-- C1 counterexample: in `emptyState` the template database is absent,
so the storage-provisioning step of `create_project` raises after the
registry commit.  The request fails — yet the control-plane `projects`
row and the owner membership row created by it are still present in the
resulting state: nothing removed them, contradicting the claimed
all-or-nothing compensation. -/
theorem C1_counterexample :
    (create_project emptyState 1 c1Req).1 = Except.error ApiError.internalError ∧
    ¬ findProject ((create_project emptyState 1 c1Req).2).projects 1 = none ∧
    ¬ findMembership ((create_project emptyState 1 c1Req).2).teams 1 1 = none := by
  decide

/-- C1 (amended): `create_project` commits the `projects` row and the
owner membership row *before* provisioning; when the embedded template
copy then fails (template file missing), the handler's `db.rollback()`
has nothing pending to undo and no compensating delete exists, so the
request returns a 500 error while both committed control-plane rows
remain in the registry.  No partial tenant file is left behind (the copy
failed before writing). -/
theorem C1_commits_survive_provisioning_failure (st : GState) (uid : Nat)
    (req : ProjectCreate) (p : String)
    (hmode : req.db_mode = "sqlite")
    (hcfg : req.sqlite_config = some ⟨some p⟩)
    (hne : ¬ p = "")
    (hfile : alookup st.fs p = none)
    (htmpl : alookup st.fs templatePath = none)
    (hfreshP : findProject st.projects st.nextProjectId = none)
    (hfreshM : findMembership st.teams st.nextProjectId uid = none) :
    (create_project st uid req).1 = Except.error ApiError.internalError ∧
    findProject ((create_project st uid req).2).projects st.nextProjectId =
      some ⟨st.nextProjectId, req.name, req.description, uid, req.db_mode,
            [("path", p)], false⟩ ∧
    findMembership ((create_project st uid req).2).teams st.nextProjectId uid =
      some ⟨st.nextProjectId, uid, UserRole.owner,
        some [("can_edit", true), ("can_delete", true), ("can_invite", true)]⟩ ∧
    ((create_project st uid req).2).fs = st.fs := by
  have hrun : create_project st uid req =
      (Except.error ApiError.internalError,
       { st with
          projects := st.projects ++
            [⟨st.nextProjectId, req.name, req.description, uid, req.db_mode,
              [("path", p)], false⟩],
          teams := st.teams ++
            [⟨st.nextProjectId, uid, UserRole.owner,
              some [("can_edit", true), ("can_delete", true), ("can_invite", true)]⟩],
          nextProjectId := st.nextProjectId + 1 }) := by
    simp [create_project, hmode, hcfg, SqliteConfig.dict, alookup, hne, hfile,
      initialize_pyarchinit_db, htmpl]
  rw [hrun]
  refine ⟨rfl, ?_, ?_, rfl⟩
  · exact findProject_append_fresh st.projects _ st.nextProjectId hfreshP rfl
  · exact findMembership_append_fresh st.teams _ st.nextProjectId uid hfreshM rfl rfl

/-- Witness for the amended C1 statement at the concrete scenario. -/
theorem C1_commits_survive_provisioning_failure_witness :
    (create_project emptyState 1 c1Req).1 = Except.error ApiError.internalError ∧
    findProject ((create_project emptyState 1 c1Req).2).projects 1 =
      some ⟨1, "proj1", none, 1, "sqlite", [("path", "/data/proj1.db")], false⟩ := by
  have h := C1_commits_survive_provisioning_failure emptyState 1 c1Req "/data/proj1.db"
    rfl rfl (by decide) (by decide) (by decide) (by decide) (by decide)
  exact ⟨h.1, h.2.1⟩

/-! ## C3 — the owner membership is immutable -/

/-- One membership-management call never removes or re-roles the owner
membership row. -/
theorem applyTeamOp_preserves_owner (st : GState) (pid : Nat) (op : TeamOp)
    (h : ownerRowIntact st pid) : ownerRowIntact (applyTeamOp st op) pid := by
  obtain ⟨proj, hproj, m, hmem, h1, h2, h3⟩ := h
  cases op with
  | removeOp c p2 t2 =>
      show ownerRowIntact ((remove_team_member st c p2 t2).2) pid
      unfold remove_team_member
      split
      · exact ⟨proj, hproj, m, hmem, h1, h2, h3⟩
      · split
        · exact ⟨proj, hproj, m, hmem, h1, h2, h3⟩
        · next proj2 hproj2 =>
            split
            · exact ⟨proj, hproj, m, hmem, h1, h2, h3⟩
            · next howner =>
                have hkeep : ¬ (m.project_id = p2 ∧ m.user_id = t2) := by
                  rintro ⟨e1, e2⟩
                  have hp2 : p2 = pid := e1 ▸ h1
                  rw [hp2, hproj] at hproj2
                  injection hproj2 with hpe
                  apply howner
                  rw [← hpe]
                  exact h2.symm.trans e2
                have hmem2 : m ∈ st.teams.filter
                    (fun m => ¬ (m.project_id = p2 ∧ m.user_id = t2)) :=
                  List.mem_filter.mpr ⟨hmem, decide_eq_true hkeep⟩
                simp only [apply_ite Prod.snd, ite_self]
                exact ⟨proj, hproj, m, hmem2, h1, h2, h3⟩
  | updateOp p2 t2 req =>
      show ownerRowIntact ((update_team_member st p2 t2 req).2) pid
      unfold update_team_member
      split
      · exact ⟨proj, hproj, m, hmem, h1, h2, h3⟩
      · split
        · exact ⟨proj, hproj, m, hmem, h1, h2, h3⟩
        · next proj2 hproj2 =>
            split
            · exact ⟨proj, hproj, m, hmem, h1, h2, h3⟩
            · next howner =>
                split
                · exact ⟨proj, hproj, m, hmem, h1, h2, h3⟩
                · have hkeep : ¬ (m.project_id = p2 ∧ m.user_id = t2) := by
                    rintro ⟨e1, e2⟩
                    have hp2 : p2 = pid := e1 ▸ h1
                    rw [hp2, hproj] at hproj2
                    injection hproj2 with hpe
                    apply howner
                    rw [← hpe]
                    exact h2.symm.trans e2
                  refine ⟨proj, hproj, m, List.mem_map.mpr ⟨m, hmem, ?_⟩, h1, h2, h3⟩
                  show (if m.project_id = p2 ∧ m.user_id = t2 then _ else m) = m
                  rw [if_neg hkeep]

/-- No sequence of membership-management calls disturbs the owner
membership. -/
theorem applyTeamOps_preserves_owner (pid : Nat) (ops : List TeamOp) :
    ∀ st, ownerRowIntact st pid → ownerRowIntact (applyTeamOps st ops) pid := by
  induction ops with
  | nil => intro st h; exact h
  | cons op rest ih =>
      intro st h
      exact ih _ (applyTeamOp_preserves_owner st pid op h)

/-- C3: for every tenant and its owning principal, removing the owner's
membership always fails leaving the membership table unchanged — with
error `cannotRemoveOwner` whenever the caller clears the permission
guard — and updating the owner's membership always fails with
`cannotModifyOwner` (or with the validator's owner-role rejection);
consequently no sequence of remove/update calls can remove or re-role
the owner membership row. -/
theorem C3_owner_membership_immutable :
    (∀ st c pid proj, findProject st.projects pid = some proj →
      (remove_team_member st c pid proj.owner_id).2 = st ∧
      (check_permission st.teams pid c "can_invite" = true →
        (remove_team_member st c pid proj.owner_id).1 =
          Except.error ApiError.cannotRemoveOwner) ∧
      (¬ check_permission st.teams pid c "can_invite" = true →
        (remove_team_member st c pid proj.owner_id).1 =
          Except.error ApiError.permissionDenied)) ∧
    (∀ st pid proj req, findProject st.projects pid = some proj →
      (update_team_member st pid proj.owner_id req).2 = st ∧
      (¬ req.role = some UserRole.owner →
        (update_team_member st pid proj.owner_id req).1 =
          Except.error ApiError.cannotModifyOwner) ∧
      (req.role = some UserRole.owner →
        (update_team_member st pid proj.owner_id req).1 =
          Except.error ApiError.ownerRoleRejected)) ∧
    (∀ st pid ops, ownerRowIntact st pid →
      ownerRowIntact (applyTeamOps st ops) pid) := by
  refine ⟨?_, ?_, ?_⟩
  · intro st c pid proj hproj
    by_cases hperm : check_permission st.teams pid c "can_invite" = true
    · have hrun : remove_team_member st c pid proj.owner_id =
          (Except.error ApiError.cannotRemoveOwner, st) := by
        unfold remove_team_member
        rw [if_neg (fun hh => hh hperm)]
        simp [hproj]
      rw [hrun]
      exact ⟨rfl, fun _ => rfl, fun hn => absurd hperm hn⟩
    · have hrun : remove_team_member st c pid proj.owner_id =
          (Except.error ApiError.permissionDenied, st) := by
        unfold remove_team_member
        rw [if_pos hperm]
      rw [hrun]
      exact ⟨rfl, fun hy => absurd hy hperm, fun _ => rfl⟩
  · intro st pid proj req hproj
    by_cases hrole : req.role = some UserRole.owner
    · have hrun : update_team_member st pid proj.owner_id req =
          (Except.error ApiError.ownerRoleRejected, st) := by
        unfold update_team_member
        rw [if_pos hrole]
      rw [hrun]
      exact ⟨rfl, fun hn => absurd hrole hn, fun _ => rfl⟩
    · have hrun : update_team_member st pid proj.owner_id req =
          (Except.error ApiError.cannotModifyOwner, st) := by
        unfold update_team_member
        rw [if_neg hrole]
        simp [hproj]
      rw [hrun]
      exact ⟨rfl, fun _ => rfl, fun hy => absurd hy hrole⟩
  · intro st pid ops h
    exact applyTeamOps_preserves_owner pid ops st h

/-- Witness for C3: in `exState` (project 1 owned by user 1), removing
the owner fails with `cannotRemoveOwner` and changes nothing; updating
the owner fails with `cannotModifyOwner`; and a remove/update sequence
aimed at the owner leaves the owner row intact. -/
theorem C3_owner_membership_immutable_witness :
    (remove_team_member exState 1 1 1).1 = Except.error ApiError.cannotRemoveOwner ∧
    (remove_team_member exState 1 1 1).2 = exState ∧
    (update_team_member exState 1 1 ⟨some UserRole.viewer, none⟩).1 =
      Except.error ApiError.cannotModifyOwner ∧
    ownerRowIntact
      (applyTeamOps exState
        [TeamOp.removeOp 1 1 1, TeamOp.updateOp 1 1 ⟨some UserRole.viewer, none⟩]) 1 := by
  have hproj : findProject exState.projects 1 =
      some ⟨1, "proj1", none, 1, "sqlite", [("path", "/data/proj1.db")], false⟩ := by
    decide
  have h1 := C3_owner_membership_immutable.1 exState 1 1
    ⟨1, "proj1", none, 1, "sqlite", [("path", "/data/proj1.db")], false⟩ hproj
  have h2 := C3_owner_membership_immutable.2.1 exState 1
    ⟨1, "proj1", none, 1, "sqlite", [("path", "/data/proj1.db")], false⟩
    ⟨some UserRole.viewer, none⟩ hproj
  have h3 := C3_owner_membership_immutable.2.2 exState 1
    [TeamOp.removeOp 1 1 1, TeamOp.updateOp 1 1 ⟨some UserRole.viewer, none⟩]
    ⟨⟨1, "proj1", none, 1, "sqlite", [("path", "/data/proj1.db")], false⟩, hproj,
      ⟨1, 1, UserRole.owner,
        some [("can_edit", true), ("can_delete", true), ("can_invite", true)]⟩,
      by decide, rfl, rfl, rfl⟩
  exact ⟨h1.2.1 (by decide), h1.1, h2.2.1 (by decide), h3⟩
